import Mathlib

/- Shallow embedding of `checker.py` from gcp-orphaned-resource-checker: a
drift detector that pulls a terraform state snapshot, enumerates live GCP
resources (org IAM bindings, folders, folder IAM bindings, DNS record sets)
and prints every live identity key that is absent from the declared state.
Cloud API collaborators are modelled as function parameters returning
`Except`, matching the spec's interface-boundary treatment; printing is
modelled by returning report values. -/

mutual
/-- JSON documents manipulated by `checker.py` (terraform state records and
provider API responses). Objects are ordered key-value sequences, matching
Python dict insertion order. -/
inductive Json where
  | null : Json
  | bool (b : Bool) : Json
  | num (n : Int) : Json
  | str (s : String) : Json
  | arr (xs : JsonArr) : Json
  | obj (kvs : JsonObj) : Json
deriving DecidableEq

/-- A JSON array: an ordered sequence of JSON values. -/
inductive JsonArr where
  | nil : JsonArr
  | cons (hd : Json) (tl : JsonArr) : JsonArr
deriving DecidableEq

/-- A JSON object: an ordered sequence of string-keyed JSON values. -/
inductive JsonObj where
  | nil : JsonObj
  | cons (k : String) (v : Json) (tl : JsonObj) : JsonObj
deriving DecidableEq
end

/-- The elements of a JSON array as a list. -/
def JsonArr.toList : JsonArr → List Json
  | .nil => []
  | .cons hd tl => hd :: tl.toList

/-- First-match key lookup in a JSON object (Python dict access). -/
def JsonObj.lookup : JsonObj → String → Option Json
  | .nil, _ => none
  | .cons k' v tl, k => if k' = k then some v else tl.lookup k

/-- The values of a JSON object in insertion order (Python `dict.values()`). -/
def JsonObj.values : JsonObj → List Json
  | .nil => []
  | .cons _ v tl => v :: tl.values

/-- Python `d.get(k)` on a JSON value: `none` when the key is absent or the
value is not an object. -/
def json_get (j : Json) (k : String) : Option Json :=
  match j with
  | .obj kvs => kvs.lookup k
  | _ => none

/-- Embedding of `jsonpointer.resolve_pointer` as called by `checker.py`
(always without a default argument): walking to an absent member raises
`JsonPointerException`, modelled as `Except.error`; a present member whose
value is JSON null resolves to `Json.null`. The program's pointers only
traverse objects, so walking into a non-object is likewise an error. -/
def resolve_pointer (j : Json) : List String → Except String Json
  | [] => .ok j
  | p :: ps =>
    match j with
    | .obj kvs =>
      match kvs.lookup p with
      | some v => resolve_pointer v ps
      | none => .error ("JsonPointerException: member " ++ p ++ " not found")
    | _ => .error "JsonPointerException: unresolvable"

/-- Python truthiness of a JSON value, as used by `filter(None, parent_ids)`
in `check_folders` (checker.py line 97). -/
def py_falsy : Json → Bool
  | .null => true
  | .bool b => !b
  | .num n => decide (n = 0)
  | .str s => decide (s = "")
  | .arr .nil => true
  | .arr (.cons _ _) => false
  | .obj .nil => true
  | .obj (.cons _ _ _) => false

/-- Rendering of a JSON scalar inside a Python f-string (`str()`); only
string values are ever displayed by the program. -/
def json_display : Json → String
  | .null => "None"
  | .bool true => "True"
  | .bool false => "False"
  | .num n => toString n
  | .str s => s
  | .arr _ => "[arr]"
  | .obj _ => "[obj]"

/-- Python `set(iterable)`: the set of elements of a list. -/
def py_set {α : Type} [DecidableEq α] (l : List α) : Finset α :=
  l.toFinset

/-- The reconciliation primitive shared by all four checks:
`live.difference(declared)`, i.e. live − declared
(checker.py lines 75, 108, 143, 187). -/
def reconcile {α : Type} [DecidableEq α] (declared live : Finset α) : Finset α :=
  live \ declared

/-- Lookup in a Python dict modelled as its insertion sequence with duplicate
keys retained: the last insertion of a key wins, so lookup scans from the
right. Used for `gcp_folders` and `folder_states` in checker.py. -/
def dict_lookup {α : Type} (d : List (Json × α)) (k : Json) : Option α :=
  (d.reverse.find? (fun p => decide (p.1 = k))).map Prod.snd

/-- Python `d1.update(d2)` on insertion sequences: entries of the second dict
take precedence under `dict_lookup`. -/
def dict_update {α : Type} (d₁ d₂ : List (Json × α)) : List (Json × α) :=
  d₁ ++ d₂

/-- The grouping loop of `main` (checker.py lines 31-33): a defaultdict from
the `type` tag to the module's resources with that tag, in module order.
`resources[t]` is the group for tag `t` (empty when no resource matches). -/
def group_by_type (rs : List Json) (t : String) : List Json :=
  rs.filter (fun r => decide (json_get r "type" = some (Json.str t)))

/-- `state['modules']` (checker.py line 30): a missing key raises `KeyError`,
a non-array value raises `TypeError` when iterated as modules. -/
def state_modules (state : Json) : Except String (List Json) :=
  match json_get state "modules" with
  | some (.arr ms) => .ok ms.toList
  | some _ => .error "TypeError: modules"
  | none => .error "KeyError: modules"

/-- `module['resources'].values()` (checker.py line 32): a missing key raises
`KeyError`; a non-object has no `.values()`. -/
def module_resources (m : Json) : Except String (List Json) :=
  match json_get m "resources" with
  | some (.obj kvs) => .ok kvs.values
  | some _ => .error "AttributeError: values"
  | none => .error "KeyError: resources"

/-- A live IAM policy binding as returned by `getIamPolicy`
(`{role, members[]}`). -/
structure Binding where
  role : String
  members : List String
deriving DecidableEq

/-- The nested flattening loop of the IAM checks (checker.py lines 130-133
and 174-177): one `(member, role)` key per member of each binding,
accumulated into a Python set. -/
def flatten_bindings (bindings : List Binding) : Finset (Json × Json) :=
  bindings.foldl
    (fun acc b =>
      b.members.foldl (fun a m => insert (Json.str m, Json.str b.role) a) acc)
    ∅

/-- The declared `(member, role)` key set of the IAM checks (checker.py
lines 135-141 and 179-185): resolves the `member` and `role` attributes of
each declared membership resource. -/
def member_role_keys (rs : List Json) : Except String (Finset (Json × Json)) := do
  let keys ← rs.mapM (fun r => do
    let m ← resolve_pointer r ["primary", "attributes", "member"]
    let ro ← resolve_pointer r ["primary", "attributes", "role"]
    pure (m, ro))
  pure keys.toFinset

/-- What `check_org_iam` prints when drift is found: the organisation's
`domain` attribute and the missing keys (checker.py lines 145-151). -/
structure OrgIamReport where
  domain : Json
  missing : Finset (Json × Json)
deriving DecidableEq

/-- Embedding of `check_org_iam` (checker.py lines 118-151). `org_policy` is
the live `organizations().getIamPolicy` collaborator. `next(iter(...))` on an
empty group raises `StopIteration`. -/
def check_org_iam (group : String → List Json)
    (org_policy : Json → Except String (List Binding)) :
    Except String (Option OrgIamReport) := do
  match group "google_organization" with
  | [] => .error "StopIteration"
  | org_state :: _ => do
    let name ← resolve_pointer org_state ["primary", "attributes", "name"]
    let bindings ← org_policy name
    let gcp_iam_ids := flatten_bindings bindings
    let state_iam_ids ← member_role_keys (group "google_organization_iam_member")
    let missing_iam_ids := reconcile state_iam_ids gcp_iam_ids
    if missing_iam_ids = ∅ then pure none
    else do
      let org_name ← resolve_pointer org_state ["primary", "attributes", "domain"]
      pure (some ⟨org_name, missing_iam_ids⟩)

/-- A live folder record as returned by `folders().list`
(the fields `checker.py` reads: `name` and `displayName`). -/
structure GFolder where
  name : String
  displayName : String
deriving DecidableEq

/-- One page of the folder listing turned into dict entries keyed by the
folder's `name` (the dict comprehensions at checker.py lines 221-224 and
230-233). -/
def page_pairs (page : List GFolder) : List (Json × GFolder) :=
  page.map (fun f => (Json.str f.name, f))

/-- Embedding of `_get_gcp_folders_in_parent` (checker.py lines 217-235): the
first page's dict, then `update` with each later page's dict until no
continuation remains. `first` is the initial response's folders, `rest` the
folders of each subsequent page. -/
def get_gcp_folders_in_parent (first : List GFolder) (rest : List (List GFolder)) :
    List (Json × GFolder) :=
  rest.foldl (fun d page => dict_update d (page_pairs page)) (page_pairs first)

/-- The parent scope set of `check_folders` (checker.py lines 93-97): the
resolved `parent` attribute of every declared folder, with falsy values
dropped by `filter(None, ...)` and duplicates collapsed by `set(...)`. -/
def folder_parent_ids (folder_states : List Json) : Except String (List Json) := do
  let parents ← folder_states.mapM
    (fun f => resolve_pointer f ["primary", "attributes", "parent"])
  pure ((parents.filter (fun p => py_falsy p = false)).dedup)

/-- The merged live folder dict of `check_folders` (checker.py lines 99-101):
lists the children of every parent scope and merges with `update`. Each
parent's listing comes back as a first page plus later pages. -/
def gcp_folders_dict
    (folder_pages : Json → Except String (List GFolder × List (List GFolder)))
    (parent_ids : List Json) : Except String (List (Json × GFolder)) :=
  parent_ids.foldlM
    (fun acc pid => do
      let pages ← folder_pages pid
      pure (dict_update acc (get_gcp_folders_in_parent pages.1 pages.2)))
    []

/-- What `check_folders` prints when drift is found: the missing live folder
ids (checker.py lines 110-115). -/
structure FoldersReport where
  missing : Finset Json
deriving DecidableEq

/-- Embedding of `check_folders` (checker.py lines 85-115). `folder_pages` is
the live paginated `folders().list` collaborator, per parent scope. -/
def check_folders (group : String → List Json)
    (folder_pages : Json → Except String (List GFolder × List (List GFolder))) :
    Except String (Option FoldersReport) := do
  let folder_states := group "google_folder"
  let parent_ids ← folder_parent_ids folder_states
  let gcp_folders ← gcp_folders_dict folder_pages parent_ids
  let state_folders ← folder_states.mapM
    (fun f => resolve_pointer f ["primary", "attributes", "name"])
  let gcp_folder_ids := py_set (gcp_folders.map Prod.fst)
  let missing_folder_ids := reconcile (py_set state_folders) gcp_folder_ids
  if missing_folder_ids = ∅ then pure none
  else pure (some ⟨missing_folder_ids⟩)

/-- The `folder_states` dict of `check_folder_iam` (checker.py lines
160-163): declared folders keyed by their resolved `id` attribute. -/
def folder_states_dict (folders : List Json) : Except String (List (Json × Json)) :=
  folders.mapM (fun r => do
    let i ← resolve_pointer r ["primary", "attributes", "id"]
    pure (i, r))

/-- One defaultdict append: extends the group of key `k` when present,
otherwise starts a new group at the end (Python dict insertion order). -/
def add_to_group (gs : List (Json × List Json)) (k : Json) (r : Json) :
    List (Json × List Json) :=
  match gs with
  | [] => [(k, [r])]
  | (k', rs) :: rest =>
    if k' = k then (k', rs ++ [r]) :: rest else (k', rs) :: add_to_group rest k r

/-- The `iam_states_by_folder_name` grouping of `check_folder_iam`
(checker.py lines 165-168): declared folder IAM membership resources grouped
by their resolved `folder` attribute. -/
def iam_states_by_folder (members : List Json) :
    Except String (List (Json × List Json)) :=
  members.foldlM
    (fun gs r => do
      let f ← resolve_pointer r ["primary", "attributes", "folder"]
      pure (add_to_group gs f r))
    []

/-- What one iteration of `check_folder_iam`'s loop prints when drift is
found for a folder: the folder name, its declared `display_name`, and the
missing keys (checker.py lines 189-198). -/
structure FolderIamReport where
  folder : Json
  displayName : Json
  missing : Finset (Json × Json)
deriving DecidableEq

/-- One iteration of `check_folder_iam`'s per-folder loop (checker.py lines
170-198): fetch the folder's live policy, flatten, diff against the folder's
declared members; on drift, look the folder up in `folder_states` (a missing
entry raises `KeyError`) and resolve its `display_name` for the report. -/
def process_folder_group (folder_states : List (Json × Json))
    (folder_policy : Json → Except String (List Binding))
    (folder_name : Json) (folder_resources : List Json) :
    Except String (Option FolderIamReport) := do
  let bindings ← folder_policy folder_name
  let gcp_iam_ids := flatten_bindings bindings
  let state_iam_ids ← member_role_keys folder_resources
  let missing_iam_ids := reconcile state_iam_ids gcp_iam_ids
  if missing_iam_ids = ∅ then pure none
  else
    match dict_lookup folder_states folder_name with
    | none => .error "KeyError"
    | some fr => do
      let dn ← resolve_pointer fr ["primary", "attributes", "display_name"]
      pure (some ⟨folder_name, dn, missing_iam_ids⟩)

/-- Embedding of `check_folder_iam` (checker.py lines 154-198).
`folder_policy` is the live `folders().getIamPolicy` collaborator. -/
def check_folder_iam (group : String → List Json)
    (folder_policy : Json → Except String (List Binding)) :
    Except String (List FolderIamReport) := do
  let folder_states ← folder_states_dict (group "google_folder")
  let groups ← iam_states_by_folder (group "google_folder_iam_member")
  let reports ← groups.mapM
    (fun fg => process_folder_group folder_states folder_policy fg.1 fg.2)
  pure (reports.filterMap id)

/-- Embedding of `_get_recordsets_for_zone` (checker.py lines 201-214): the
`(name, type)` pairs of every page, concatenated in page order. -/
def get_recordsets_for_zone (pages : List (List (String × String))) :
    List (String × String) :=
  pages.flatten

/-- The declared DNS key of one `google_dns_record_set` resource (checker.py
lines 66-71): `(project, managed_zone, name, type)` resolved in order. -/
def dns_key (r : Json) : Except String (Json × Json × Json × Json) := do
  let proj ← resolve_pointer r ["primary", "attributes", "project"]
  let zone ← resolve_pointer r ["primary", "attributes", "managed_zone"]
  let name ← resolve_pointer r ["primary", "attributes", "name"]
  let ty ← resolve_pointer r ["primary", "attributes", "type"]
  pure (proj, zone, name, ty)

/-- The declared DNS key set of `check_dns` (checker.py lines 65-73). -/
def dns_state_keys (rs : List Json) :
    Except String (Finset (Json × Json × Json × Json)) := do
  let keys ← rs.mapM dns_key
  pure keys.toFinset

/-- What `check_dns` prints when drift is found: the missing live record-set
keys (checker.py lines 77-82). -/
structure DnsReport where
  missing : Finset (Json × Json × Json × Json)
deriving DecidableEq

/-- Embedding of `check_dns` (checker.py lines 41-82). `zone_pages` lists a
project's managed zone names page by page; `rrset_pages` lists a zone's
record sets page by page. -/
def check_dns (group : String → List Json)
    (zone_pages : Json → Except String (List (List String)))
    (rrset_pages : Json → String → Except String (List (List (String × String)))) :
    Except String (Option DnsReport) := do
  let project_states := group "google_project"
  let gcp_recordsets ← project_states.foldlM
    (fun acc project => do
      let project_id ← resolve_pointer project ["primary", "id"]
      let zpages ← zone_pages project_id
      zpages.flatten.foldlM
        (fun acc2 zone => do
          let rpages ← rrset_pages project_id zone
          pure ((get_recordsets_for_zone rpages).foldl
            (fun a rr => insert (project_id, Json.str zone, Json.str rr.1, Json.str rr.2) a)
            acc2))
        acc)
    (∅ : Finset (Json × Json × Json × Json))
  let dns_rs_states ← dns_state_keys (group "google_dns_record_set")
  let missing_dns := reconcile dns_rs_states gcp_recordsets
  if missing_dns = ∅ then pure none
  else pure (some ⟨missing_dns⟩)

/-- The live-API collaborators of one run, at the interface boundary the spec
draws (credentials and client construction are out of scope). -/
structure Collaborators where
  org_policy : Json → Except String (List Binding)
  folder_pages : Json → Except String (List GFolder × List (List GFolder))
  folder_policy : Json → Except String (List Binding)
  zone_pages : Json → Except String (List (List String))
  rrset_pages : Json → String → Except String (List (List (String × String)))

/-- Everything one module's four checks print, as report values. -/
structure ModuleOutput where
  org_iam : Option OrgIamReport
  folders : Option FoldersReport
  folder_iam : List FolderIamReport
  dns : Option DnsReport
deriving DecidableEq

/-- The per-module check sequence of `main` (checker.py lines 35-38): the
four checks run in order, and an uncaught error from any one of them aborts
the rest. -/
def run_checks_on_module (group : String → List Json) (c : Collaborators) :
    Except String ModuleOutput := do
  let o ← check_org_iam group c.org_policy
  let f ← check_folders group c.folder_pages
  let fi ← check_folder_iam group c.folder_policy
  let d ← check_dns group c.zone_pages c.rrset_pages
  pure ⟨o, f, fi, d⟩

/-- One iteration of `main`'s module loop (checker.py lines 30-38): read the
module's resources, group them by type, run the four checks. -/
def run_module (c : Collaborators) (m : Json) : Except String ModuleOutput := do
  let rs ← module_resources m
  run_checks_on_module (group_by_type rs) c

/-- The module loop of `main` (checker.py lines 30-38), after state pull and
JSON parsing: iterate `state['modules']` and run every check per module. -/
def main_run (state : Json) (c : Collaborators) :
    Except String (List ModuleOutput) := do
  let ms ← state_modules state
  ms.mapM (run_module c)

/-- The report block of `check_org_iam` (checker.py lines 145-151), with the
missing set supplied in its iteration order: nothing when empty, else a
header naming the organisation followed by one printed line per key. -/
def render_org_iam (org_name : Json) (missing : List (Json × Json)) : List String :=
  if missing.isEmpty then []
  else
    ("\nTerraform is not controlling IAM bindings for the "
        ++ json_display org_name ++ " organisation:") ::
      missing.map (fun k => "\t" ++ json_display k.1 ++ ": " ++ json_display k.2)

/-- The report block of `check_dns` (checker.py lines 77-82), with the
missing set supplied in its iteration order: nothing when empty, else a
header followed by one printed line per key. -/
def render_dns (missing : List (Json × Json × Json × Json)) : List String :=
  if missing.isEmpty then []
  else
    "\nTerraform is not controlling DNS records:" ::
      missing.map (fun k =>
        "\t" ++ json_display k.2.2.1 ++ " (" ++ json_display k.2.2.2
          ++ " record)\n\t\tin managed zone " ++ json_display k.2.1
          ++ " of project " ++ json_display k.1)

/-- One printed line of the folders report block (checker.py lines 113-115):
`folder_data = gcp_folders[missing_folder_id]` raises a KeyError when the id
is not a key of the dict (unreachable from `check_folders`, whose missing
set is drawn from the dict's keys), then the display name and name are
formatted. -/
def folder_line (gcp_folders : List (Json × GFolder)) (id : Json) :
    Except String String :=
  match dict_lookup gcp_folders id with
  | some fd => .ok ("\t" ++ fd.displayName ++ " (" ++ fd.name ++ ")")
  | none => .error "KeyError"

/-- The report block of `check_folders` (checker.py lines 110-115), with the
missing set supplied in its iteration order: nothing when empty, else a
fixed header followed by one printed line per key, each line looking the
folder up in the `gcp_folders` dict. -/
def render_folders (gcp_folders : List (Json × GFolder)) (missing : List Json) :
    Except String (List String) :=
  if missing.isEmpty then .ok []
  else do
    let lines ← missing.mapM (folder_line gcp_folders)
    pure ("\nTerraform is not controlling folders:" :: lines)

/-- The report block of `check_folder_iam` (checker.py lines 189-198), with
the resolved display name and the missing set supplied in its iteration
order: nothing when empty, else a header naming the folder followed by one
printed line per key. -/
def render_folder_iam (folder_display_name folder_name : Json)
    (missing : List (Json × Json)) : List String :=
  if missing.isEmpty then []
  else
    ("\nTerraform is not controlling IAM bindings for folder "
        ++ json_display folder_display_name ++ " ("
        ++ json_display folder_name ++ ")") ::
      missing.map (fun k => "\t" ++ json_display k.1 ++ ": " ++ json_display k.2)

/-- A declared `google_organization` resource as it appears in a terraform
state module: resolvable `name` and `domain` attributes. -/
def org_resource_ex : Json :=
  Json.obj (.cons "type" (Json.str "google_organization")
    (.cons "primary" (Json.obj (.cons "attributes"
      (Json.obj (.cons "name" (Json.str "organizations/123")
        (.cons "domain" (Json.str "example.com") .nil))) .nil)) .nil))

/-- A declared-state document in the flat top-level shape
`{resources: {id: record}}` the spec says the engine must accept. -/
def flat_state_ex : Json :=
  Json.obj (.cons "resources"
    (Json.obj (.cons "google_organization.org" org_resource_ex .nil)) .nil)

/-- The same declared resources wrapped in the module-partitioned shape
`{modules: [{resources: {...}}]}` that `main` actually iterates. -/
def modules_state_ex : Json :=
  Json.obj (.cons "modules" (Json.arr (.cons flat_state_ex .nil)) .nil)

/-- Collaborators whose listings and policies are all empty and succeed. -/
def collaborators_ok : Collaborators :=
  ⟨fun _ => .ok [], fun _ => .ok ([], []), fun _ => .ok [],
    fun _ => .ok [], fun _ _ => .ok []⟩

/-- Collaborators whose organisation IAM-policy fetch fails with a network
error while every other endpoint succeeds with empty listings. -/
def collaborators_org_down : Collaborators :=
  ⟨fun _ => .error "HttpError", fun _ => .ok ([], []), fun _ => .ok [],
    fun _ => .ok [], fun _ _ => .ok []⟩

/-- A declared `google_dns_record_set` resource whose `type` attribute is
absent (its other three key attributes are present). -/
def bad_dns_resource_ex : Json :=
  Json.obj (.cons "type" (Json.str "google_dns_record_set")
    (.cons "primary" (Json.obj (.cons "attributes"
      (Json.obj (.cons "project" (Json.str "proj1")
        (.cons "managed_zone" (Json.str "zoneA")
          (.cons "name" (Json.str "www.example.com.") .nil)))) .nil)) .nil))

/-- A declared `google_folder_iam_member` resource referencing folder
`folders/999`, for which no `google_folder` resource is declared. -/
def orphan_member_resource_ex : Json :=
  Json.obj (.cons "type" (Json.str "google_folder_iam_member")
    (.cons "primary" (Json.obj (.cons "attributes"
      (Json.obj (.cons "folder" (Json.str "folders/999")
        (.cons "member" (Json.str "user:a")
          (.cons "role" (Json.str "roles/viewer") .nil)))) .nil)) .nil))

/-- Collaborators whose folder IAM-policy fetch returns one binding that is
not declared anywhere, with every other endpoint empty and successful. -/
def collaborators_folder_drift : Collaborators :=
  ⟨fun _ => .ok [], fun _ => .ok ([], []),
    fun _ => .ok [⟨"roles/owner", ["user:evil"]⟩],
    fun _ => .ok [], fun _ _ => .ok []⟩

/-- A declared `google_folder` resource whose `parent` attribute is the
empty string. -/
def folder_empty_parent_ex : Json :=
  Json.obj (.cons "type" (Json.str "google_folder")
    (.cons "primary" (Json.obj (.cons "attributes"
      (Json.obj (.cons "parent" (Json.str "")
        (.cons "name" (Json.str "folders/10") .nil))) .nil)) .nil))

/-- A declared `google_folder` resource whose `parent` attribute is null. -/
def folder_null_parent_ex : Json :=
  Json.obj (.cons "type" (Json.str "google_folder")
    (.cons "primary" (Json.obj (.cons "attributes"
      (Json.obj (.cons "parent" Json.null
        (.cons "name" (Json.str "folders/11") .nil))) .nil)) .nil))

/-- A declared `google_folder` resource with a real parent scope. -/
def folder_real_parent_ex : Json :=
  Json.obj (.cons "type" (Json.str "google_folder")
    (.cons "primary" (Json.obj (.cons "attributes"
      (Json.obj (.cons "parent" (Json.str "organizations/9")
        (.cons "name" (Json.str "folders/12") .nil))) .nil)) .nil))

example : reconcile (py_set [1, 2]) (py_set [2, 3]) = {3} := by decide
example : resolve_pointer (Json.obj (.cons "a" (Json.obj .nil) .nil)) ["a", "b"]
    = Except.error "JsonPointerException: member b not found" := rfl

/- Helper lemmas shared by the claim theorems. -/

/-- Binding an `Except.ok` value is application of the continuation. -/
theorem ok_bind {α β : Type} (a : α) (f : α → Except String β) :
    (Except.ok a >>= f) = f a := rfl

/-- Binding an `Except.error` value propagates the error. -/
theorem error_bind {α β : Type} (e : String) (f : α → Except String β) :
    ((Except.error e : Except String α) >>= f) = Except.error e := rfl

/-- Membership in a left fold that inserts the image of each element. -/
theorem mem_foldl_insert {α β : Type} [DecidableEq α] (f : β → α) (l : List β)
    (acc : Finset α) (x : α) :
    x ∈ l.foldl (fun a m => insert (f m) a) acc ↔ x ∈ acc ∨ ∃ m ∈ l, f m = x := by
  induction l generalizing acc with
  | nil => simp
  | cons hd tl ih =>
    simp only [List.foldl_cons, ih, Finset.mem_insert, List.mem_cons]
    constructor
    · rintro (⟨h | h⟩ | ⟨m, hm, hfm⟩)
      · exact Or.inr ⟨hd, Or.inl rfl, h.symm⟩
      · exact Or.inl h
      · exact Or.inr ⟨m, Or.inr hm, hfm⟩
    · rintro (h | ⟨m, hm | hm, hfm⟩)
      · exact Or.inl (Or.inr h)
      · exact Or.inl (Or.inl (hm ▸ hfm.symm))
      · exact Or.inr ⟨m, hm, hfm⟩

/-- Membership in the accumulator-generalised binding flattening loop. -/
theorem mem_flatten_bindings_loop (bs : List Binding) (acc : Finset (Json × Json))
    (x : Json × Json) :
    x ∈ bs.foldl
        (fun acc b =>
          b.members.foldl (fun a m => insert (Json.str m, Json.str b.role) a) acc)
        acc
      ↔ x ∈ acc ∨ ∃ b ∈ bs, ∃ m ∈ b.members, x = (Json.str m, Json.str b.role) := by
  induction bs generalizing acc with
  | nil => simp
  | cons hd tl ih =>
    simp only [List.foldl_cons, ih, List.mem_cons,
      mem_foldl_insert (fun m => (Json.str m, Json.str hd.role)) hd.members acc x]
    constructor
    · rintro (⟨h | ⟨m, hm, hfm⟩⟩ | ⟨b, hb, m, hm, hx⟩)
      · exact Or.inl h
      · exact Or.inr ⟨hd, Or.inl rfl, m, hm, hfm.symm⟩
      · exact Or.inr ⟨b, Or.inr hb, m, hm, hx⟩
    · rintro (h | ⟨b, hb | hb, m, hm, hx⟩)
      · exact Or.inl (Or.inl h)
      · subst hb
        exact Or.inl (Or.inr ⟨m, hm, hx.symm⟩)
      · exact Or.inr ⟨b, hb, m, hm, hx⟩

/-- The paged folder merge concatenates the pages' dict entries in order. -/
theorem get_gcp_folders_eq_pairs (first : List GFolder) (rest : List (List GFolder)) :
    get_gcp_folders_in_parent first rest = page_pairs (first ++ rest.flatten) := by
  have loop : ∀ (ps : List (List GFolder)) (acc : List (Json × GFolder)),
      ps.foldl (fun d page => dict_update d (page_pairs page)) acc
        = acc ++ (ps.map page_pairs).flatten := by
    intro ps
    induction ps with
    | nil => intro acc; simp
    | cons hd tl ih =>
      intro acc
      rw [List.foldl_cons, ih (dict_update acc (page_pairs hd))]
      simp [dict_update, List.append_assoc]
  unfold get_gcp_folders_in_parent
  rw [loop rest (page_pairs first)]
  simp only [page_pairs, List.map_append, List.map_flatten]
  rfl

/-- C1: the reconciliation primitive used by each check returns exactly the
set difference live − declared, and its result is invariant under reordering
of the declared and live input enumerations (pure set semantics). -/
theorem reconcile_set_semantics {α : Type} [DecidableEq α]
    (D D' L L' : List α) (hD : List.Perm D D') (hL : List.Perm L L') :
    reconcile (py_set D) (py_set L) = reconcile (py_set D') (py_set L')
      ∧ ∀ k, k ∈ reconcile (py_set D) (py_set L) ↔ (k ∈ L ∧ k ∉ D) := by
  have hsD : py_set D = py_set D' := by
    apply Finset.ext
    intro a
    simp [py_set, List.mem_toFinset, hD.mem_iff]
  have hsL : py_set L = py_set L' := by
    apply Finset.ext
    intro a
    simp [py_set, List.mem_toFinset, hL.mem_iff]
  refine ⟨by rw [reconcile, reconcile, hsD, hsL], ?_⟩
  intro k
  simp [reconcile, py_set, Finset.mem_sdiff, List.mem_toFinset]

/-- Witness for C1 at concrete reordered inputs. -/
theorem reconcile_set_semantics_witness :
    List.Perm [("user:a", "roles/viewer"), ("user:b", "roles/editor")]
        [("user:b", "roles/editor"), ("user:a", "roles/viewer")]
      ∧ List.Perm [("user:b", "roles/editor")] [("user:b", "roles/editor")]
      ∧ (reconcile (py_set [("user:a", "roles/viewer"), ("user:b", "roles/editor")])
            (py_set [("user:b", "roles/editor")])
          = reconcile (py_set [("user:b", "roles/editor"), ("user:a", "roles/viewer")])
            (py_set [("user:b", "roles/editor")])
        ∧ ∀ k, k ∈ reconcile
              (py_set [("user:a", "roles/viewer"), ("user:b", "roles/editor")])
              (py_set [("user:b", "roles/editor")])
            ↔ (k ∈ [("user:b", "roles/editor")]
                ∧ k ∉ [("user:a", "roles/viewer"), ("user:b", "roles/editor")])) :=
  ⟨by decide, by decide,
    reconcile_set_semantics
      [("user:a", "roles/viewer"), ("user:b", "roles/editor")]
      [("user:b", "roles/editor"), ("user:a", "roles/viewer")]
      [("user:b", "roles/editor")] [("user:b", "roles/editor")]
      (by decide) (by decide)⟩

/-- C9: the reconciliation primitive satisfies the identity laws: identical
declared and live key-sets produce no drift, and when nothing is declared
every live key is reported. -/
theorem reconcile_identity_laws {α : Type} [DecidableEq α] (D L : Finset α) :
    reconcile D D = ∅ ∧ reconcile (∅ : Finset α) L = L :=
  ⟨Finset.sdiff_self D, Finset.sdiff_empty⟩

/-- C7: flattening a live IAM policy produces exactly one composite
(member, role) key per member of each binding, all carrying the binding's
role; in particular the binding with role "roles/viewer" and members
"user:a", "user:b" yields exactly those two keys. -/
theorem iam_flattening :
    (∀ (bs : List Binding) (k : Json × Json),
        k ∈ flatten_bindings bs
          ↔ ∃ b ∈ bs, ∃ m ∈ b.members, k = (Json.str m, Json.str b.role))
      ∧ (∀ b : Binding,
          flatten_bindings [b]
            = (b.members.map (fun m => (Json.str m, Json.str b.role))).toFinset)
      ∧ flatten_bindings [⟨"roles/viewer", ["user:a", "user:b"]⟩]
          = {(Json.str "user:a", Json.str "roles/viewer"),
             (Json.str "user:b", Json.str "roles/viewer")} := by
  refine ⟨?_, ?_, by decide⟩
  · intro bs k
    simp [flatten_bindings, mem_flatten_bindings_loop]
  · intro b
    apply Finset.ext
    intro k
    simp only [flatten_bindings, mem_flatten_bindings_loop, Finset.not_mem_empty,
      false_or, List.mem_singleton, List.mem_toFinset, List.mem_map]
    constructor
    · rintro ⟨b', hb', m, hm, hk⟩
      exact ⟨m, hb' ▸ hm, (hb' ▸ hk).symm⟩
    · rintro ⟨m, hm, hk⟩
      exact ⟨b, rfl, m, hm, hk.symm⟩

/-- C6: the paged folder enumerator's merged result is, under dict lookup,
the single unpaged listing of all pages' items: every item of every page is
present, and on duplicate identity (same folder name) the later page's entry
wins. -/
theorem folder_pagination_merge (first : List GFolder) (rest : List (List GFolder)) :
    (∀ k, dict_lookup (get_gcp_folders_in_parent first rest) k
        = dict_lookup (page_pairs (first ++ rest.flatten)) k)
      ∧ (∀ page, page ∈ first :: rest → ∀ f, f ∈ page →
          (dict_lookup (get_gcp_folders_in_parent first rest) (Json.str f.name)).isSome
            = true)
      ∧ (∀ f g : GFolder, f.name = g.name →
          dict_lookup (get_gcp_folders_in_parent [f] [[g]]) (Json.str f.name)
            = some g) := by
  refine ⟨?_, ?_, ?_⟩
  · intro k
    rw [get_gcp_folders_eq_pairs]
  · intro page hpage f hf
    rw [get_gcp_folders_eq_pairs]
    have hmem : f ∈ first ++ rest.flatten := by
      rcases List.mem_cons.mp hpage with h | h
      · exact List.mem_append_left _ (h ▸ hf)
      · exact List.mem_append_right _ (List.mem_flatten.mpr ⟨page, h, hf⟩)
    simp only [dict_lookup, Option.isSome_map', List.find?_isSome]
    exact ⟨(Json.str f.name, f), by
      simp only [List.mem_reverse, page_pairs, List.mem_map]
      exact ⟨f, hmem, rfl⟩, by simp⟩
  · intro f g h
    rw [get_gcp_folders_eq_pairs]
    simp [page_pairs, dict_lookup, h]

/-- Witness for C6: a folder reappearing on a later page overwrites the
earlier page's entry. -/
theorem folder_pagination_merge_witness :
    dict_lookup
        (get_gcp_folders_in_parent [⟨"folders/1", "A"⟩] [[⟨"folders/1", "B"⟩]])
        (Json.str "folders/1")
      = some ⟨"folders/1", "B"⟩ :=
  (folder_pagination_merge [⟨"folders/1", "A"⟩] [[⟨"folders/1", "B"⟩]]).2.2
    ⟨"folders/1", "A"⟩ ⟨"folders/1", "B"⟩ rfl

/-- Successful `mapM` over `Except` preserves the list's length. -/
theorem mapM_ok_length {α β : Type} (g : α → Except String β) :
    ∀ (l : List α) (out : List β), l.mapM g = .ok out → out.length = l.length := by
  intro l
  induction l with
  | nil =>
    intro out h
    simp only [List.mapM_nil] at h
    cases h
    rfl
  | cons a l ih =>
    intro out h
    rw [List.mapM_cons] at h
    cases hga : g a with
    | error e =>
      rw [hga, error_bind] at h
      exact Except.noConfusion h
    | ok x =>
      rw [hga, ok_bind] at h
      cases hml : l.mapM g with
      | error e =>
        rw [hml, error_bind] at h
        exact Except.noConfusion h
      | ok xs =>
        rw [hml, ok_bind] at h
        cases h
        simp [ih xs hml]

/-- Looking a key of the dict up always succeeds. -/
theorem dict_lookup_mem_keys {α : Type} (d : List (Json × α)) (k : Json)
    (h : k ∈ d.map Prod.fst) : ∃ v, dict_lookup d k = some v := by
  obtain ⟨p, hp, hk⟩ := List.mem_map.mp h
  have hs : (d.reverse.find? (fun q => decide (q.1 = k))).isSome := by
    rw [List.find?_isSome]
    exact ⟨p, List.mem_reverse.mpr hp, by simp [hk]⟩
  obtain ⟨q, hq⟩ := Option.isSome_iff_exists.mp hs
  refine ⟨q.2, ?_⟩
  unfold dict_lookup
  rw [hq]
  rfl

/-- C8 counterexample: drift in two different scopes (different project and
managed zone) yields the identical fixed DNS header, so the non-empty DNS
report's header does not name the scope. -/
theorem reporter_dns_header_no_scope :
    (render_dns [(Json.str "proj1", Json.str "zoneA",
        Json.str "mail.example.com.", Json.str "MX")]).head?
      = some "\nTerraform is not controlling DNS records:"
      ∧ (render_dns [(Json.str "proj2", Json.str "zoneB",
          Json.str "mail.example.com.", Json.str "MX")]).head?
        = some "\nTerraform is not controlling DNS records:" :=
  ⟨rfl, rfl⟩

/-- C8 (amended): every check's report block emits nothing when the missing
set is empty; when non-empty it emits one header line followed by exactly
one line per missing key. The header names the kind in all four checks but
names the scope only in the org-IAM check (org domain) and the folder-IAM
check (folder display name and id); the DNS and folders headers are fixed
kind-only strings, the DNS check carrying its scope (project and zone)
inside each missing-key line instead. The folders lines look each missing
id up in the live dict, which always succeeds because the missing set is
drawn from the dict's keys. -/
theorem reporter_blocks_silence_and_lines (org_name fdisp fname : Json)
    (m2 mf2 : List (Json × Json)) (m4 : List (Json × Json × Json × Json))
    (g : List (Json × GFolder)) (mf : List Json) :
    (render_org_iam org_name [] = []
        ∧ render_folders g [] = .ok []
        ∧ render_folder_iam fdisp fname [] = []
        ∧ render_dns [] = [])
      ∧ (m2 ≠ [] →
          render_org_iam org_name m2
              = ("\nTerraform is not controlling IAM bindings for the "
                  ++ json_display org_name ++ " organisation:")
                :: m2.map (fun k => "\t" ++ json_display k.1 ++ ": " ++ json_display k.2)
            ∧ (render_org_iam org_name m2).length = m2.length + 1)
      ∧ (mf2 ≠ [] →
          render_folder_iam fdisp fname mf2
              = ("\nTerraform is not controlling IAM bindings for folder "
                  ++ json_display fdisp ++ " (" ++ json_display fname ++ ")")
                :: mf2.map (fun k => "\t" ++ json_display k.1 ++ ": " ++ json_display k.2)
            ∧ (render_folder_iam fdisp fname mf2).length = mf2.length + 1)
      ∧ (m4 ≠ [] →
          render_dns m4
              = "\nTerraform is not controlling DNS records:"
                :: m4.map (fun k =>
                  "\t" ++ json_display k.2.2.1 ++ " (" ++ json_display k.2.2.2
                    ++ " record)\n\t\tin managed zone " ++ json_display k.2.1
                    ++ " of project " ++ json_display k.1)
            ∧ (render_dns m4).length = m4.length + 1)
      ∧ (∀ lines, mf ≠ [] → mf.mapM (folder_line g) = .ok lines →
          render_folders g mf
              = .ok ("\nTerraform is not controlling folders:" :: lines)
            ∧ lines.length = mf.length)
      ∧ (∀ (state_names : List Json) (id : Json),
          id ∈ reconcile (py_set state_names) (py_set (g.map Prod.fst)) →
          ∃ fd, dict_lookup g id = some fd) := by
  refine ⟨⟨rfl, rfl, rfl, rfl⟩, ?_, ?_, ?_, ?_, ?_⟩
  · intro h
    have he : m2.isEmpty = false := List.isEmpty_eq_false.mpr h
    rw [render_org_iam, he]
    exact ⟨rfl, by simp⟩
  · intro h
    have he : mf2.isEmpty = false := List.isEmpty_eq_false.mpr h
    rw [render_folder_iam, he]
    exact ⟨rfl, by simp⟩
  · intro h
    have he : m4.isEmpty = false := List.isEmpty_eq_false.mpr h
    rw [render_dns, he]
    exact ⟨rfl, by simp⟩
  · intro lines hne hml
    have he : mf.isEmpty = false := List.isEmpty_eq_false.mpr hne
    refine ⟨?_, mapM_ok_length (folder_line g) mf lines hml⟩
    rw [render_folders, he, hml, ok_bind]
    rfl
  · intro state_names id hid
    have hmem : id ∈ py_set (g.map Prod.fst) := (Finset.mem_sdiff.mp hid).1
    exact dict_lookup_mem_keys g id (List.mem_toFinset.mp hmem)

/-- Witness for the amended C8 at concrete nonempty missing sets: the
folder-IAM block's header and line count, and the folders block's exact
output at a one-element dict. -/
theorem reporter_blocks_silence_and_lines_witness :
    ([(Json.str "user:b", Json.str "roles/editor")] ≠ ([] : List (Json × Json)))
      ∧ (render_folder_iam (Json.str "X") (Json.str "folders/2")
          [(Json.str "user:b", Json.str "roles/editor")]).length = 2
      ∧ render_folders [(Json.str "folders/2", ⟨"folders/2", "X"⟩)]
          [Json.str "folders/2"]
        = .ok ["\nTerraform is not controlling folders:", "\tX (folders/2)"] :=
  ⟨by decide,
    ((reporter_blocks_silence_and_lines (Json.str "example.com") (Json.str "X")
        (Json.str "folders/2") [(Json.str "user:b", Json.str "roles/editor")]
        [(Json.str "user:b", Json.str "roles/editor")] []
        [(Json.str "folders/2", ⟨"folders/2", "X"⟩)]
        [Json.str "folders/2"]).2.2.1 (by decide)).2,
    ((reporter_blocks_silence_and_lines (Json.str "example.com") (Json.str "X")
        (Json.str "folders/2") [(Json.str "user:b", Json.str "roles/editor")]
        [(Json.str "user:b", Json.str "roles/editor")] []
        [(Json.str "folders/2", ⟨"folders/2", "X"⟩)]
        [Json.str "folders/2"]).2.2.2.2.1 ["\tX (folders/2)"]
      (by decide) rfl).1⟩

/-- C2 counterexample: the very same resource map is processed when wrapped
in the module-partitioned shape but rejected (KeyError on `modules`) when
given as a flat top-level `resources` map, so the engine does not accept
both input shapes. -/
theorem flat_shape_rejected :
    main_run flat_state_ex collaborators_ok = .error "KeyError: modules"
      ∧ main_run modules_state_ex collaborators_ok
        = .ok [⟨none, none, [], none⟩] :=
  ⟨rfl, rfl⟩

/-- C2 (amended): the engine accepts only the module-partitioned shape: a
document without a top-level `modules` key is rejected with a KeyError, and
a document with `modules` is processed module by module with the same
checks. -/
theorem engine_requires_modules_shape (state : Json) (c : Collaborators) :
    (json_get state "modules" = none → main_run state c = .error "KeyError: modules")
      ∧ ∀ ms, json_get state "modules" = some (Json.arr ms) →
          main_run state c = ms.toList.mapM (run_module c) := by
  constructor
  · intro h
    simp [main_run, state_modules, h, error_bind]
  · intro ms h
    simp [main_run, state_modules, h, ok_bind]

/-- Witness for the amended C2 at the concrete flat document. -/
theorem engine_requires_modules_shape_witness :
    json_get flat_state_ex "modules" = none
      ∧ main_run flat_state_ex collaborators_ok = .error "KeyError: modules" :=
  ⟨rfl, (engine_requires_modules_shape flat_state_ex collaborators_ok).1 rfl⟩

/-- C3: a failure inside one check aborts the remaining checks. With the
organisation policy fetch failing, the per-module driver returns that error
and the DNS check never contributes, even though the same DNS check run on
its own succeeds. This evaluates the code at the failing input of the
code_bug verdict. -/
theorem check_failure_halts_siblings :
    run_checks_on_module (group_by_type [org_resource_ex]) collaborators_org_down
        = .error "HttpError"
      ∧ check_dns (group_by_type [org_resource_ex])
          collaborators_org_down.zone_pages collaborators_org_down.rrset_pages
        = .ok none :=
  ⟨rfl, rfl⟩

/-- C4 counterexample: resolving an attribute path with an absent segment
does not return a null sentinel; it raises, and the exception propagates
past the caller (the whole declared-key extraction of the DNS check fails). -/
theorem resolve_pointer_absent_member_throws :
    resolve_pointer bad_dns_resource_ex ["primary", "attributes", "type"]
        = .error "JsonPointerException: member type not found"
      ∧ resolve_pointer bad_dns_resource_ex ["primary", "attributes", "type"]
          ≠ .ok Json.null
      ∧ dns_state_keys [bad_dns_resource_ex]
          = .error "JsonPointerException: member type not found" :=
  ⟨rfl, fun h => Except.noConfusion h, rfl⟩

/-- C4 (amended): the attribute-path lookup is total only in the sense of
`Except`: a present path resolves to its stored value (a stored JSON null
resolves to null), but an absent segment raises JsonPointerException, and
the exception propagates past the caller of the lookup. -/
theorem resolve_pointer_total_in_except :
    (∀ (kvs : JsonObj) (p : String) (ps : List String),
        kvs.lookup p = none →
          resolve_pointer (Json.obj kvs) (p :: ps)
            = .error ("JsonPointerException: member " ++ p ++ " not found"))
      ∧ (∀ (kvs : JsonObj) (p : String) (ps : List String) (v : Json),
          kvs.lookup p = some v →
            resolve_pointer (Json.obj kvs) (p :: ps) = resolve_pointer v ps)
      ∧ (∀ (r : Json) (rs : List Json) (e : String),
          dns_key r = .error e → dns_state_keys (r :: rs) = .error e) := by
  refine ⟨?_, ?_, ?_⟩
  · intro kvs p ps h
    simp [resolve_pointer, h]
  · intro kvs p ps v h
    simp [resolve_pointer, h]
  · intro r rs e h
    unfold dns_state_keys
    rw [List.mapM_cons, h]
    rfl

/-- Witness for the amended C4 at the concrete record missing its `type`
attribute. -/
theorem resolve_pointer_total_in_except_witness :
    dns_key bad_dns_resource_ex
        = .error "JsonPointerException: member type not found"
      ∧ dns_state_keys [bad_dns_resource_ex]
        = .error "JsonPointerException: member type not found" :=
  ⟨rfl, resolve_pointer_total_in_except.2.2 bad_dns_resource_ex [] _ rfl⟩

/-- Successful `mapM` over `Except` characterises the members of its output:
exactly the successful images of the input's members. -/
theorem mapM_ok_mem {α β : Type} (g : α → Except String β) :
    ∀ (l : List α) (out : List β), l.mapM g = .ok out →
      ∀ y, y ∈ out ↔ ∃ x ∈ l, g x = .ok y := by
  intro l
  induction l with
  | nil =>
    intro out h y
    simp only [List.mapM_nil] at h
    cases h
    simp
  | cons a l ih =>
    intro out h y
    rw [List.mapM_cons] at h
    cases hga : g a with
    | error e =>
      rw [hga, error_bind] at h
      exact Except.noConfusion h
    | ok x =>
      rw [hga, ok_bind] at h
      cases hml : l.mapM g with
      | error e =>
        rw [hml, error_bind] at h
        exact Except.noConfusion h
      | ok xs =>
        rw [hml, ok_bind] at h
        cases h
        have ihh := ih xs hml
        simp only [List.mem_cons]
        constructor
        · rintro (rfl | hy)
          · exact ⟨a, Or.inl rfl, hga⟩
          · obtain ⟨x', hx', hgx'⟩ := (ihh y).mp hy
            exact ⟨x', Or.inr hx', hgx'⟩
        · rintro ⟨x', hx' | hx', hgx'⟩
          · subst hx'
            rw [hga] at hgx'
            cases hgx'
            exact Or.inl rfl
          · exact Or.inr ((ihh y).mpr ⟨x', hx', hgx'⟩)

/-- The merged live-folder fold only consults the listing collaborator at
the parent scopes it is given. -/
theorem gcp_folders_dict_congr
    (fp fp' : Json → Except String (List GFolder × List (List GFolder)))
    (ps : List Json) (h : ∀ p ∈ ps, fp p = fp' p) :
    gcp_folders_dict fp ps = gcp_folders_dict fp' ps := by
  have loop : ∀ (qs : List Json) (acc : List (Json × GFolder)),
      (∀ p ∈ qs, fp p = fp' p) →
      qs.foldlM (fun acc pid => do
          let pages ← fp pid
          pure (dict_update acc (get_gcp_folders_in_parent pages.1 pages.2))) acc
        = qs.foldlM (fun acc pid => do
          let pages ← fp' pid
          pure (dict_update acc (get_gcp_folders_in_parent pages.1 pages.2))) acc := by
    intro qs
    induction qs with
    | nil => intro acc _; rfl
    | cons q qt ih =>
      intro acc hq
      rw [List.foldlM_cons, List.foldlM_cons, hq q (List.mem_cons_self q qt)]
      have hx : (fun b => qt.foldlM (fun acc pid => do
            let pages ← fp pid
            pure (dict_update acc (get_gcp_folders_in_parent pages.1 pages.2))) b)
          = (fun b => qt.foldlM (fun acc pid => do
            let pages ← fp' pid
            pure (dict_update acc (get_gcp_folders_in_parent pages.1 pages.2))) b) :=
        funext fun b => ih b (fun p hp => hq p (List.mem_cons_of_mem q hp))
      rw [hx]
  exact loop ps [] h

/-- C10: the Folder Hierarchy check's parent scope set drops every falsy
parent value, not only null: an empty-string (or null) parent contributes no
parent scope, so no live children listing is made for it and it can never
cause any live folder to be reported; the scope set is exactly the truthy
resolved parent attributes. -/
theorem folder_parent_scope_filters_falsy (folder_states ps : List Json)
    (h : folder_parent_ids folder_states = .ok ps) :
    (∀ p ∈ ps, py_falsy p = false)
      ∧ Json.str "" ∉ ps ∧ Json.null ∉ ps
      ∧ (∀ p, p ∈ ps ↔ (py_falsy p = false
          ∧ ∃ f ∈ folder_states,
              resolve_pointer f ["primary", "attributes", "parent"] = .ok p))
      ∧ (∀ (group : String → List Json) fp fp',
          group "google_folder" = folder_states →
          (∀ p ∈ ps, fp p = fp' p) →
          check_folders group fp = check_folders group fp') := by
  have hps : ∀ p, p ∈ ps ↔ (py_falsy p = false
      ∧ ∃ f ∈ folder_states,
          resolve_pointer f ["primary", "attributes", "parent"] = .ok p) := by
    unfold folder_parent_ids at h
    cases hm : folder_states.mapM
        (fun f => resolve_pointer f ["primary", "attributes", "parent"]) with
    | error e =>
      rw [hm, error_bind] at h
      exact Except.noConfusion h
    | ok parents =>
      rw [hm, ok_bind] at h
      cases h
      intro p
      rw [List.mem_dedup, List.mem_filter]
      have := mapM_ok_mem
        (fun f => resolve_pointer f ["primary", "attributes", "parent"])
        folder_states parents hm p
      constructor
      · rintro ⟨hmem, hfal⟩
        exact ⟨by simpa using hfal, this.mp hmem⟩
      · rintro ⟨hfal, hex⟩
        exact ⟨this.mpr hex, by simpa using hfal⟩
  refine ⟨fun p hp => ((hps p).mp hp).1, ?_, ?_, hps, ?_⟩
  · intro hmem
    have := ((hps _).mp hmem).1
    simp [py_falsy] at this
  · intro hmem
    have := ((hps _).mp hmem).1
    simp [py_falsy] at this
  · intro group fp fp' hgroup hagree
    simp only [check_folders, hgroup, h, ok_bind,
      gcp_folders_dict_congr fp fp' ps hagree]

/-- Witness for C10: empty-string and null parents contribute no scope; only
the real parent remains. -/
theorem folder_parent_scope_filters_falsy_witness :
    folder_parent_ids
        [folder_empty_parent_ex, folder_null_parent_ex, folder_real_parent_ex]
      = .ok [Json.str "organizations/9"]
      ∧ Json.str "" ∉ [Json.str "organizations/9"]
      ∧ Json.null ∉ [Json.str "organizations/9"] :=
  ⟨rfl,
    (folder_parent_scope_filters_falsy
      [folder_empty_parent_ex, folder_null_parent_ex, folder_real_parent_ex]
      [Json.str "organizations/9"] rfl).2.1,
    (folder_parent_scope_filters_falsy
      [folder_empty_parent_ex, folder_null_parent_ex, folder_real_parent_ex]
      [Json.str "organizations/9"] rfl).2.2.1⟩

/-- Keys after one defaultdict append: the old keys plus the appended key. -/
theorem add_to_group_keys (gs : List (Json × List Json)) (k r f : Json) :
    f ∈ (add_to_group gs k r).map Prod.fst ↔ f ∈ gs.map Prod.fst ∨ f = k := by
  induction gs with
  | nil => simp [add_to_group]
  | cons hd tl ih =>
    obtain ⟨k', rs⟩ := hd
    unfold add_to_group
    split
    · rename_i hk
      subst hk
      simp only [List.map_cons, List.mem_cons]
      tauto
    · rename_i hk
      simp only [List.map_cons, List.mem_cons, ih]
      tauto

/-- Keys of the accumulator-generalised folder-IAM grouping fold: the
accumulator's keys plus every successfully resolved `folder` attribute. -/
theorem iam_states_fold_keys :
    ∀ (members : List Json) (gs out : List (Json × List Json)),
      members.foldlM (fun gs r => do
          let f ← resolve_pointer r ["primary", "attributes", "folder"]
          pure (add_to_group gs f r)) gs = .ok out →
      ∀ f, f ∈ out.map Prod.fst ↔ f ∈ gs.map Prod.fst
          ∨ ∃ r ∈ members,
              resolve_pointer r ["primary", "attributes", "folder"] = .ok f := by
  intro members
  induction members with
  | nil =>
    intro gs out h f
    simp only [List.foldlM_nil] at h
    cases h
    simp
  | cons a l ih =>
    intro gs out h f
    rw [List.foldlM_cons] at h
    cases hra : resolve_pointer a ["primary", "attributes", "folder"] with
    | error e =>
      rw [hra, error_bind, error_bind] at h
      exact Except.noConfusion h
    | ok fa =>
      rw [hra, ok_bind, pure_bind] at h
      rw [ih (add_to_group gs fa a) out h f, add_to_group_keys]
      constructor
      · rintro ((hgs | rfl) | ⟨r, hr, hres⟩)
        · exact Or.inl hgs
        · exact Or.inr ⟨a, List.mem_cons_self a l, hra⟩
        · exact Or.inr ⟨r, List.mem_cons_of_mem a hr, hres⟩
      · rintro (hgs | ⟨r, hr, hres⟩)
        · exact Or.inl (Or.inl hgs)
        · rcases List.mem_cons.mp hr with rfl | hr'
          · rw [hra] at hres
            cases hres
            exact Or.inl (Or.inr rfl)
          · exact Or.inr ⟨r, hr', hres⟩

/-- C5 counterexample: one declared folder IAM membership references
`folders/999` while no `google_folder` resource is declared; the live policy
holds an undeclared binding, so the missing set is non-empty, and instead of
reporting it the check raises a KeyError looking up the display name. -/
theorem folder_iam_orphan_folder_keyerror :
    check_folder_iam (group_by_type [orphan_member_resource_ex])
        collaborators_folder_drift.folder_policy
      = .error "KeyError" := rfl

/-- C5 (amended): the folders the Folder IAM check fetches and diffs are
keyed solely by the `folder` attribute of the declared folder_iam_member
resources (no `google_folder` resource is consulted for that); per folder,
an empty missing set yields no report and completes, while a non-empty
missing set reports only when a declared `google_folder` with a matching id
exists — otherwise the display-name lookup fails with a KeyError instead of
reporting. -/
theorem folder_iam_scope_and_reporting :
    (∀ (members : List Json) (groups : List (Json × List Json)),
        iam_states_by_folder members = .ok groups →
        ∀ f, f ∈ groups.map Prod.fst
          ↔ ∃ r ∈ members,
              resolve_pointer r ["primary", "attributes", "folder"] = .ok f)
      ∧ (∀ (folder_states : List (Json × Json))
            (folder_policy : Json → Except String (List Binding))
            (fname : Json) (frs : List Json) (bindings : List Binding)
            (skeys : Finset (Json × Json)),
          folder_policy fname = .ok bindings →
          member_role_keys frs = .ok skeys →
            ((reconcile skeys (flatten_bindings bindings) = ∅ →
                process_folder_group folder_states folder_policy fname frs
                  = .ok none)
              ∧ (reconcile skeys (flatten_bindings bindings) ≠ ∅ →
                  dict_lookup folder_states fname = none →
                  process_folder_group folder_states folder_policy fname frs
                    = .error "KeyError")
              ∧ (∀ fr dn, reconcile skeys (flatten_bindings bindings) ≠ ∅ →
                  dict_lookup folder_states fname = some fr →
                  resolve_pointer fr ["primary", "attributes", "display_name"]
                    = .ok dn →
                  process_folder_group folder_states folder_policy fname frs
                    = .ok (some ⟨fname, dn,
                        reconcile skeys (flatten_bindings bindings)⟩)))) := by
  constructor
  · intro members groups h f
    rw [iam_states_fold_keys members [] groups h f]
    simp
  · intro folder_states folder_policy fname frs bindings skeys hp hm
    refine ⟨?_, ?_, ?_⟩
    · intro h1
      unfold process_folder_group
      rw [hp, ok_bind, hm, ok_bind, if_pos h1]
      rfl
    · intro h1 h2
      unfold process_folder_group
      rw [hp, ok_bind, hm, ok_bind, if_neg h1, h2]
    · intro fr dn h1 h2 h3
      unfold process_folder_group
      rw [hp, ok_bind, hm, ok_bind, if_neg h1, h2]
      show (resolve_pointer fr ["primary", "attributes", "display_name"]
          >>= fun dn => pure (some (⟨fname, dn,
            reconcile skeys (flatten_bindings bindings)⟩ : FolderIamReport)))
        = .ok (some ⟨fname, dn, reconcile skeys (flatten_bindings bindings)⟩)
      rw [h3, ok_bind]
      rfl

/-- Witness for the amended C5: the per-folder step at the concrete orphan
membership resource ends in the KeyError branch. -/
theorem folder_iam_scope_and_reporting_witness :
    iam_states_by_folder [orphan_member_resource_ex]
        = .ok [(Json.str "folders/999", [orphan_member_resource_ex])]
      ∧ process_folder_group [] collaborators_folder_drift.folder_policy
          (Json.str "folders/999") [orphan_member_resource_ex]
        = .error "KeyError" :=
  ⟨rfl,
    (folder_iam_scope_and_reporting.2 [] collaborators_folder_drift.folder_policy
        (Json.str "folders/999") [orphan_member_resource_ex]
        [⟨"roles/owner", ["user:evil"]⟩] _ rfl rfl).2.1 (by decide) rfl⟩
